import Mathlib

/-!
# Verification of the qualitative-evaluation survey app (api/index.py)

This file gives a shallow embedding of the catalog builder
(`load_evaluation_items`), the navigation handler (`evaluate_item`), the
submission handler (`submit_evaluation`) and the session-id handler
(`get_new_user_id`) of `api/index.py`, together with theorems checking the
specification's claims against them.

Python strings are modelled as Lean `String`s, and the Python string
operations used by the code (`split`, `replace`, `lower`, `upper`, `strip`,
`endswith`, slicing, comparison, `int()` coercion, `urllib.parse.quote`)
are modelled by structurally recursive functions on the underlying
character lists, so that every definition evaluates on concrete inputs.
Python's string comparison is by code point, which is what the
character-list lexicographic comparison below implements; `lower`/`upper`
are modelled on ASCII letters (the only letters in the repository's
filenames).  Python's `list.sort`/`sorted` are stable sorts; they are
modelled by `List.insertionSort`, which is stable with respect to the
same non-strict comparison.
-/

/-! ## Python string primitives -/

/-- Lexicographic strict comparison of character lists by code point:
the model of Python's `<` on strings. -/
def lexLt : List Char → List Char → Bool
  | [], [] => false
  | [], _ :: _ => true
  | _ :: _, [] => false
  | a :: as, b :: bs => if a < b then true else if b < a then false else lexLt as bs

/-- Lexicographic non-strict comparison of character lists by code point:
the model of Python's `<=` on strings. -/
def lexLe : List Char → List Char → Bool
  | [], _ => true
  | _ :: _, [] => false
  | a :: as, b :: bs => if a < b then true else if b < a then false else lexLe as bs

/-- Python `s < t` on strings. -/
def strLt (a b : String) : Prop := lexLt a.data b.data = true

/-- Python `s <= t` on strings. -/
def strLe (a b : String) : Prop := lexLe a.data b.data = true

instance : DecidableRel strLt :=
  fun a b => inferInstanceAs (Decidable (lexLt a.data b.data = true))

instance : DecidableRel strLe :=
  fun a b => inferInstanceAs (Decidable (lexLe a.data b.data = true))

/-- Python `s.replace(c, r)` for one-character patterns, as used by
`class_part.replace('_', ' ')`. -/
def pyReplace (c r : Char) (s : String) : String :=
  ⟨s.data.map (fun x => if x = c then r else x)⟩

/-- Python `s.lower()` (ASCII letters). -/
def pyLower (s : String) : String := ⟨s.data.map Char.toLower⟩

/-- Python `s.upper()` (ASCII letters). -/
def pyUpper (s : String) : String := ⟨s.data.map Char.toUpper⟩

/-- Python `s.strip()`: remove leading and trailing whitespace. -/
def pyStrip (s : String) : String :=
  ⟨((s.data.dropWhile Char.isWhitespace).reverse.dropWhile Char.isWhitespace).reverse⟩

/-- Python `s[:-4]`, as used to drop the `.png` extension. -/
def dropExt4 (s : String) : String := ⟨s.data.take (s.data.length - 4)⟩

/-- Python `filename.lower().endswith(".png")`. -/
def endsWithDotPng (s : String) : Bool :=
  List.isSuffixOf ['.', 'p', 'n', 'g'] (pyLower s).data

/-- Python `base.split('__')` on character lists: greedy left-to-right split
on the two-character delimiter. -/
def splitDUList : List Char → List (List Char)
  | [] => [[]]
  | '_' :: '_' :: rest => [] :: splitDUList rest
  | c :: rest =>
    match splitDUList rest with
    | s :: ss => (c :: s) :: ss
    | [] => [[c]]

/-- Python `base.split('__')` on strings. -/
def splitDU (s : String) : List String := (splitDUList s.data).map (fun l => ⟨l⟩)

/-- Numeric value of a list of ASCII digits. -/
def digitsVal (ds : List Char) : Nat :=
  ds.foldl (fun n c => 10 * n + (c.toNat - 48)) 0

/-- Python `int(s)` on a string: strip whitespace, optional sign, decimal
digits; `none` models the `ValueError` raised on any other input.
(Python additionally accepts underscore digit separators and non-ASCII
decimal digits; the repository only ever submits plain ASCII numerals.) -/
def pyIntOfString (s : String) : Option Int :=
  match (pyStrip s).data with
  | [] => none
  | '+' :: ds =>
    if ds ≠ [] ∧ ds.all Char.isDigit then some (digitsVal ds) else none
  | '-' :: ds =>
    if ds ≠ [] ∧ ds.all Char.isDigit then some (-(digitsVal ds : Int)) else none
  | ds =>
    if ds.all Char.isDigit then some (digitsVal ds) else none

/-- Python `int(x)` where `x` is `form.get(key)`: a missing key gives `None`,
on which `int` raises `TypeError`; that failure is also modelled by `none`. -/
def pyInt : Option String → Option Int
  | none => none
  | some s => pyIntOfString s

/-- One hexadecimal digit, upper case, as produced by `urllib.parse.quote`. -/
def hexDigitChar (n : Nat) : Char :=
  if n < 10 then Char.ofNat (48 + n) else Char.ofNat (55 + n)

/-- UTF-8 bytes of a character (as natural numbers below 256). -/
def utf8Bytes (c : Char) : List Nat :=
  let n := c.toNat
  if n < 0x80 then [n]
  else if n < 0x800 then [0xC0 + n / 0x40, 0x80 + n % 0x40]
  else if n < 0x10000 then
    [0xE0 + n / 0x1000, 0x80 + n / 0x40 % 0x40, 0x80 + n % 0x40]
  else
    [0xF0 + n / 0x40000, 0x80 + n / 0x1000 % 0x40, 0x80 + n / 0x40 % 0x40,
      0x80 + n % 0x40]

/-- Characters `urllib.parse.quote` leaves unencoded with the default
`safe='/'`: ASCII letters and digits, `_`, `.`, `-`, `~`, and `/`. -/
def quoteSafe (c : Char) : Bool :=
  c.isAlpha || c.isDigit || c = '_' || c = '.' || c = '-' || c = '~' || c = '/'

/-- Percent-encoding of one byte. -/
def percentEncodeByte (b : Nat) : List Char :=
  ['%', hexDigitChar (b / 16 % 16), hexDigitChar (b % 16)]

/-- Python `urllib.parse.quote(s)` with the default `safe='/'`. -/
def quote (s : String) : String :=
  ⟨(s.data.map (fun c =>
      if quoteSafe c then [c] else ((utf8Bytes c).map percentEncodeByte).flatten)).flatten⟩

/-! ## Catalog builder (`load_evaluation_items`) -/

/-- The fixed abbreviation table `CLASS_ABBREVIATIONS` of `api/index.py`,
keyed by the decoded class name. -/
def CLASS_ABBREVIATIONS : List (String × String) :=
  [("Copra Cake", "CC"), ("Cracked Corn", "CORN"), ("Feed Wheats", "FW"),
   ("Hard Pollard", "HP"), ("Jocky Oats", "JO"), ("Rice Bran", "RB"),
   ("US Soya", "SOY")]

def GITHUB_USERNAME : String := "PakYouMu"

def IMAGE_REPO_NAME : String := "qualitative-evaluation-images"

def BRANCH_NAME : String := "main"

def STATIC_IMAGE_FOLDER : String := "static/evaluation_images"

/-- The `public_url` f-string of `load_evaluation_items`, applied to the
percent-encoded filename. -/
def public_url (safe_filename : String) : String :=
  "https://raw.githubusercontent.com/" ++ GITHUB_USERNAME ++ "/" ++ IMAGE_REPO_NAME
    ++ "/refs/heads/" ++ BRANCH_NAME ++ "/" ++ STATIC_IMAGE_FOLDER ++ "/" ++ safe_filename

/-- The dictionary appended to `image_data` for one parsed filename
(fields `metric`, `class`, `case`, `web_path`). -/
structure ImageEntry where
  metric : String
  className : String
  caseName : String
  web_path : String
deriving Repr, DecidableEq

/-- One loop iteration of `load_evaluation_items`: the `.png` filter, the
`base_name.split('__')` unpacking into exactly three parts (any other shape
raises `ValueError`, caught and skipped: `none`), the underscore decoding of
the class name, and the public URL construction. -/
def parseFilename (filename : String) : Option ImageEntry :=
  if endsWithDotPng filename then
    match splitDU (dropExt4 filename) with
    | [class_part, metric_part, case_part] =>
      some { metric := metric_part
             className := pyReplace '_' ' ' class_part
             caseName := case_part
             web_path := public_url (quote filename) }
    | _ => none
  else none

/-- A fully built evaluation item: an `ImageEntry` enriched with the
`eval_id` and `id` fields assigned by the second pass. -/
structure Item where
  metric : String
  className : String
  caseName : String
  web_path : String
  eval_id : String
  id : Nat
deriving Repr, DecidableEq

/-- The enrichment pass of `load_evaluation_items`:
`item['eval_id'] = f"{class_abbr}-{metric.upper()}-{case}"` with
`class_abbr = CLASS_ABBREVIATIONS.get(class, 'UNK')`, and `item['id'] = i`. -/
def enrich (i : Nat) (e : ImageEntry) : Item :=
  { metric := e.metric
    className := e.className
    caseName := e.caseName
    web_path := e.web_path
    eval_id := (CLASS_ABBREVIATIONS.lookup e.className).getD "UNK" ++ "-"
      ++ pyUpper e.metric ++ "-" ++ e.caseName
    id := i }

/-- The sort key `lambda x: (x['class'], x['metric'], x['case'])` compared as
Python compares tuples of strings: lexicographically. -/
def keyLe (a b : ImageEntry) : Prop :=
  strLt a.className b.className ∨
    (a.className = b.className ∧
      (strLt a.metric b.metric ∨ (a.metric = b.metric ∧ strLe a.caseName b.caseName)))

instance : DecidableRel keyLe := fun a b => by unfold keyLe; infer_instance

/-- The same key order on enriched items (used to state sortedness of the
final catalog). -/
def itemKeyLe (a b : Item) : Prop :=
  strLt a.className b.className ∨
    (a.className = b.className ∧
      (strLt a.metric b.metric ∨ (a.metric = b.metric ∧ strLe a.caseName b.caseName)))

instance : DecidableRel itemKeyLe := fun a b => by unfold itemKeyLe; infer_instance

/-- `load_evaluation_items`, as a function of the directory listing:
iterate over `sorted(os.listdir(...))`, keep and parse the `.png` filenames
(skipping the malformed ones), sort by the `(class, metric, case)` key
(`list.sort` is stable, as is `insertionSort`), then assign `eval_id` and the
dense `id` by enumeration. -/
def load_evaluation_items (files : List String) : List Item :=
  (List.insertionSort keyLe
    ((List.insertionSort strLe files).filterMap parseFilename)).enum.map
    (fun p => enrich p.1 p.2)

/-! ## Flask endpoints and the navigation handler (`evaluate_item`) -/

/-- The endpoints registered by the `@app.route` decorators of
`api/index.py` (Flask names an endpoint after the decorated function). -/
def registeredEndpoints : List String :=
  ["evaluate_item", "complete", "get_new_user_id", "submit_evaluation"]

/-- The response of the page-serving handler `evaluate_item`. -/
inductive ShowResult where
  /-- `("Error: No evaluation items were loaded. ...", 500)`. -/
  | errorNoItems : ShowResult
  /-- `redirect(url_for(endpoint))` for a registered endpoint. -/
  | redirectEndpoint : String → ShowResult
  /-- `url_for(endpoint)` raised `BuildError` for an unregistered endpoint:
  the exception leaves the handler uncaught (a 500 from the framework). -/
  | buildError : String → ShowResult
  /-- `render_template('index.html', item=..., item_id=..., total_items=...,
  previous_id=..., next_id=...)`. -/
  | page : Item → Int → Nat → Option Int → Option Int → ShowResult
deriving Repr, DecidableEq

/-- `redirect(url_for(endpoint))`: Flask's `url_for` raises `BuildError` when
no route registers the endpoint name. -/
def redirectTo (endpoint : String) : ShowResult :=
  if endpoint ∈ registeredEndpoints then .redirectEndpoint endpoint
  else .buildError endpoint

/-- The handler for `GET /` and `GET /evaluate/<int:item_id>`:
empty-catalog guard, the range check `0 <= item_id < len(EVALUATION_ITEMS)`
(out of range: `redirect(url_for('home'))`), then the rendered page with
`previous_id = item_id - 1 if item_id > 0 else None` and
`next_id = item_id + 1 if item_id < total_items - 1 else None`. -/
def evaluate_item (items : List Item) (item_id : Int) : ShowResult :=
  if items.length = 0 then .errorNoItems
  else if h : 0 ≤ item_id ∧ item_id < (items.length : Int) then
    .page (items.get ⟨item_id.toNat, by omega⟩) item_id items.length
      (if item_id > 0 then some (item_id - 1) else none)
      (if item_id < (items.length : Int) - 1 then some (item_id + 1) else none)
  else redirectTo "home"

/-! ## Submission handler (`submit_evaluation`) -/

/-- `request.form.to_dict()` restricted to the keys the handler reads;
a missing key makes `form.get(key)` return `None`. -/
structure FormData where
  session_identifier : Option String
  eval_id : Option String
  item_class : Option String
  item_metric : Option String
  item_case : Option String
  comparative_rating : Option String
  test_rating : Option String
  comparison_rating : Option String
  comments : Option String
  next_item_id : Option String
deriving Repr, DecidableEq

/-- The `data_to_insert` row sent to the `evaluations` table. -/
structure Record where
  session_identifier : Int
  eval_id : Option String
  item_class : Option String
  item_metric : Option String
  item_case : Option String
  comparative_rating : Option String
  test_rating : Int
  comparison_rating : Int
  comments : String
deriving Repr, DecidableEq

/-- Construction of `data_to_insert` inside the `try` block: the three
`int(...)` coercions may raise (`none`), everything else is copied from the
form as-is, and `comments` defaults to `''` and is stripped. -/
def buildRecord (form : FormData) : Option Record :=
  match pyInt form.session_identifier, pyInt form.test_rating,
      pyInt form.comparison_rating with
  | some sid, some tr, some cr =>
    some { session_identifier := sid
           eval_id := form.eval_id
           item_class := form.item_class
           item_metric := form.item_metric
           item_case := form.item_case
           comparative_rating := form.comparative_rating
           test_rating := tr
           comparison_rating := cr
           comments := pyStrip (form.comments.getD "") }
  | _, _, _ => none

/-- The response of `POST /api/submit`. -/
inductive SubmitResult where
  /-- `("Error: Supabase client not initialized.", 500)`. -/
  | storageNotInit : SubmitResult
  /-- The `except` branch: `("An error occurred while saving your
  evaluation. ...", 500)` — produced both when an `int(...)` coercion raises
  and when the storage call fails. -/
  | saveError : SubmitResult
  /-- `redirect(url_for('evaluate_item', item_id=...))`. -/
  | redirectEvaluate : Int → SubmitResult
  /-- `redirect(url_for('complete'))`. -/
  | redirectComplete : SubmitResult
  /-- An exception raised outside the `try` block
  (`int(next_item_id_str)` on a non-numeric hint), propagating to the
  framework uncaught. -/
  | unhandledError : SubmitResult
deriving Repr, DecidableEq

/-- The handler for `POST /api/submit`, returning the stored table contents
together with the response.  `supabaseInit` models whether the Supabase
client was initialized; `insertFails` models the storage collaborator's
outcome for this call (`execute()` raising, or an error payload with no
rows, both of which land in the `except` branch).  The `items` parameter
is the global `EVALUATION_ITEMS` in scope at the handler — the handler
body never reads it.  On success the `insert` call appends one row to the
`evaluations` table.  The redirect logic sits after the `try`/`except`:
`next_item_id_str and next_item_id_str != 'None'` guards the redirect, and
`int(next_item_id_str)` there is outside any exception handler. -/
def submit_evaluation (items : List Item) (supabaseInit : Bool)
    (insertFails : Bool) (db : List Record) (form : FormData) :
    List Record × SubmitResult :=
  if ¬ supabaseInit then (db, .storageNotInit)
  else
    match buildRecord form with
    | none => (db, .saveError)
    | some r =>
      if insertFails then (db, .saveError)
      else
        let db2 := db ++ [r]
        match form.next_item_id with
        | none => (db2, .redirectComplete)
        | some s =>
          if s = "" ∨ s = "None" then (db2, .redirectComplete)
          else
            match pyIntOfString s with
            | some k => (db2, .redirectEvaluate k)
            | none => (db2, .unhandledError)

/-! ## Session-id handler (`get_new_user_id`) -/

/-- The response of `GET /api/get_new_user_id`. -/
inductive IdResult where
  /-- `jsonify({'user_id': response.data})`. -/
  | json : Int → IdResult
  /-- `(jsonify({'error': 'Supabase client not initialized'}), 500)`. -/
  | errorNotInit : IdResult
  /-- `(jsonify({'error': 'Could not generate user ID'}), 500)`: the
  `except` branch, reached when the RPC raises or when `response.data`
  is falsy. -/
  | errorRpc : IdResult
deriving Repr, DecidableEq

/-- The handler for `GET /api/get_new_user_id`: the RPC outcome is either a
raised exception (`Except.error`) or a returned value `response.data`
(`Except.ok`); `if response.data:` takes the Python truthiness of the
integer, and the falsy case raises into the same `except` branch. -/
def get_new_user_id (supabaseInit : Bool) (rpc : Except String Int) : IdResult :=
  if ¬ supabaseInit then .errorNotInit
  else
    match rpc with
    | .error _ => .errorRpc
    | .ok d => if d ≠ 0 then .json d else .errorRpc

/-! ## Concrete fixtures used by witnesses and counterexamples -/

/-- A well-formed submission: the spec's §8 example (`sessionId=7`,
`derivedId="CC-AHIQ-case1"`, `testRating=4`, `comparisonRating=3`,
`nextPositionHint=1`). -/
def submissionFirst : FormData :=
  { session_identifier := some "7"
    eval_id := some "CC-AHIQ-case1"
    item_class := some "Copra Cake"
    item_metric := some "AHIQ"
    item_case := some "case1"
    comparative_rating := some "test"
    test_rating := some "4"
    comparison_rating := some "3"
    comments := some " ok "
    next_item_id := some "1" }

/-- A second submission for the same `(sessionId, derivedId)` key with
different ratings and the sentinel `'None'` hint. -/
def submissionSecond : FormData :=
  { submissionFirst with
    test_rating := some "5"
    comparison_rating := some "2"
    comments := some ""
    next_item_id := some "None" }

/-- The row `buildRecord submissionFirst` constructs. -/
def recordFirst : Record :=
  { session_identifier := 7
    eval_id := some "CC-AHIQ-case1"
    item_class := some "Copra Cake"
    item_metric := some "AHIQ"
    item_case := some "case1"
    comparative_rating := some "test"
    test_rating := 4
    comparison_rating := 3
    comments := "ok" }

/-- The row `buildRecord submissionSecond` constructs. -/
def recordSecond : Record :=
  { recordFirst with test_rating := 5, comparison_rating := 2, comments := "" }

/-- `submissionFirst` with a non-numeric `test_rating`. -/
def submissionBadRating : FormData :=
  { submissionFirst with test_rating := some "abc" }

/-- `submissionFirst` with a non-empty, non-`'None'`, non-numeric
`next_item_id` hint. -/
def submissionBadHint : FormData :=
  { submissionFirst with next_item_id := some "abc" }

/-- The catalog item built from `Copra_Cake__AHIQ__case1.png` at position 0. -/
def itemCopra : Item :=
  { metric := "AHIQ"
    className := "Copra Cake"
    caseName := "case1"
    web_path := public_url (quote "Copra_Cake__AHIQ__case1.png")
    eval_id := "CC-AHIQ-case1"
    id := 0 }

/-- The catalog item built from `Rice_Bran__SSIM__case2.png` at position 1. -/
def itemRice : Item :=
  { metric := "SSIM"
    className := "Rice Bran"
    caseName := "case2"
    web_path := public_url (quote "Rice_Bran__SSIM__case2.png")
    eval_id := "RB-SSIM-case2"
    id := 1 }

/-! ## Order facts about the lexicographic comparisons -/

theorem lexLt_irrefl (a : List Char) : lexLt a a = false := by
  induction a with
  | nil => rfl
  | cons c cs ih => simp [lexLt, ih]

theorem lexLt_trans {a b c : List Char} (hab : lexLt a b = true)
    (hbc : lexLt b c = true) : lexLt a c = true := by
  induction a generalizing b c with
  | nil =>
    cases b with
    | nil => simp [lexLt] at hab
    | cons y ys =>
      cases c with
      | nil => simp [lexLt] at hbc
      | cons z zs => simp [lexLt]
  | cons x xs ih =>
    cases b with
    | nil => simp [lexLt] at hab
    | cons y ys =>
      cases c with
      | nil => simp [lexLt] at hbc
      | cons z zs =>
        simp only [lexLt] at hab hbc ⊢
        rcases lt_trichotomy x y with hxy | hxy | hxy
        · rcases lt_trichotomy y z with hyz | hyz | hyz
          · rw [if_pos (lt_trans hxy hyz)]
          · subst hyz
            rw [if_pos hxy]
          · rw [if_neg (lt_asymm hyz), if_pos hyz] at hbc
            cases hbc
        · subst hxy
          rw [if_neg (lt_irrefl x), if_neg (lt_irrefl x)] at hab
          rcases lt_trichotomy x z with hyz | hyz | hyz
          · rw [if_pos hyz]
          · subst hyz
            rw [if_neg (lt_irrefl x), if_neg (lt_irrefl x)] at hbc ⊢
            exact ih hab hbc
          · rw [if_neg (lt_asymm hyz), if_pos hyz] at hbc
            cases hbc
        · rw [if_neg (lt_asymm hxy), if_pos hxy] at hab
          cases hab

theorem lexLt_connex {a b : List Char} (hab : lexLt a b = false)
    (hba : lexLt b a = false) : a = b := by
  induction a generalizing b with
  | nil =>
    cases b with
    | nil => rfl
    | cons y ys => simp [lexLt] at hab
  | cons x xs ih =>
    cases b with
    | nil => simp [lexLt] at hba
    | cons y ys =>
      simp only [lexLt] at hab hba
      by_cases hxy : x < y
      · simp [hxy] at hab
      · by_cases hyx : y < x
        · simp [hxy, hyx] at hba
        · have hxyeq : x = y := le_antisymm (not_lt.mp hyx) (not_lt.mp hxy)
          subst hxyeq
          simp [lt_irrefl] at hab hba
          rw [ih hab hba]

theorem lexLe_iff {a b : List Char} :
    lexLe a b = true ↔ (lexLt a b = true ∨ a = b) := by
  induction a generalizing b with
  | nil =>
    cases b with
    | nil => simp [lexLe, lexLt]
    | cons y ys => simp [lexLe, lexLt]
  | cons x xs ih =>
    cases b with
    | nil => simp [lexLe, lexLt]
    | cons y ys =>
      simp only [lexLe, lexLt]
      by_cases hxy : x < y
      · simp [hxy]
      · by_cases hyx : y < x
        · have : ¬ (x = y) := ne_of_gt hyx
          simp [hxy, hyx, this]
        · have hxyeq : x = y := le_antisymm (not_lt.mp hyx) (not_lt.mp hxy)
          subst hxyeq
          simp [lt_irrefl, ih]

theorem lexLt_asymm {a b : List Char} (hab : lexLt a b = true) :
    lexLt b a = false := by
  by_contra h
  have hba : lexLt b a = true := by
    cases hh : lexLt b a
    · exact absurd hh h
    · rfl
  have := lexLt_trans hab hba
  rw [lexLt_irrefl] at this
  exact Bool.false_ne_true this

theorem lexLe_refl (a : List Char) : lexLe a a = true :=
  lexLe_iff.mpr (Or.inr rfl)

theorem lexLe_total (a b : List Char) : lexLe a b = true ∨ lexLe b a = true := by
  cases hab : lexLt a b
  · cases hba : lexLt b a
    · exact Or.inl (lexLe_iff.mpr (Or.inr (lexLt_connex hab hba)))
    · exact Or.inr (lexLe_iff.mpr (Or.inl hba))
  · exact Or.inl (lexLe_iff.mpr (Or.inl hab))

theorem lexLe_trans {a b c : List Char} (hab : lexLe a b = true)
    (hbc : lexLe b c = true) : lexLe a c = true := by
  rcases lexLe_iff.mp hab with h1 | rfl
  · rcases lexLe_iff.mp hbc with h2 | rfl
    · exact lexLe_iff.mpr (Or.inl (lexLt_trans h1 h2))
    · exact lexLe_iff.mpr (Or.inl h1)
  · exact hbc

theorem lexLe_antisymm {a b : List Char} (hab : lexLe a b = true)
    (hba : lexLe b a = true) : a = b := by
  rcases lexLe_iff.mp hab with h1 | rfl
  · rcases lexLe_iff.mp hba with h2 | rfl
    · exact absurd h1 (by simp [lexLt_asymm h2])
    · rfl
  · rfl

theorem strLt_connex {a b : String} (hab : ¬ strLt a b) (hba : ¬ strLt b a) :
    a = b := by
  apply String.ext
  exact lexLt_connex (Bool.of_not_eq_true hab) (Bool.of_not_eq_true hba)

instance : IsTotal String strLe :=
  ⟨fun a b => lexLe_total a.data b.data⟩

instance : IsTrans String strLe :=
  ⟨fun _ _ _ hab hbc => lexLe_trans hab hbc⟩

instance : IsAntisymm String strLe :=
  ⟨fun a b hab hba => String.ext (lexLe_antisymm hab hba)⟩

theorem strLt_trans {a b c : String} (hab : strLt a b) (hbc : strLt b c) :
    strLt a c := lexLt_trans hab hbc

theorem strLt_asymm {a b : String} (hab : strLt a b) : ¬ strLt b a := by
  intro h
  exact absurd h (by simp [strLt, lexLt_asymm hab])

instance : IsTotal ImageEntry keyLe := by
  constructor
  intro a b
  by_cases h1 : strLt a.className b.className
  · exact Or.inl (Or.inl h1)
  · by_cases h1' : strLt b.className a.className
    · exact Or.inr (Or.inl h1')
    · have hc : a.className = b.className := strLt_connex h1 h1'
      by_cases h2 : strLt a.metric b.metric
      · exact Or.inl (Or.inr ⟨hc, Or.inl h2⟩)
      · by_cases h2' : strLt b.metric a.metric
        · exact Or.inr (Or.inr ⟨hc.symm, Or.inl h2'⟩)
        · have hm : a.metric = b.metric := strLt_connex h2 h2'
          rcases lexLe_total a.caseName.data b.caseName.data with h3 | h3
          · exact Or.inl (Or.inr ⟨hc, Or.inr ⟨hm, h3⟩⟩)
          · exact Or.inr (Or.inr ⟨hc.symm, Or.inr ⟨hm.symm, h3⟩⟩)

instance : IsTrans ImageEntry keyLe := by
  constructor
  intro a b c hab hbc
  rcases hab with h1 | ⟨hce, h1⟩
  · rcases hbc with h2 | ⟨hce2, h2⟩
    · exact Or.inl (strLt_trans h1 h2)
    · exact Or.inl (hce2 ▸ h1)
  · rcases hbc with h2 | ⟨hce2, h2⟩
    · exact Or.inl (hce ▸ h2)
    · refine Or.inr ⟨hce.trans hce2, ?_⟩
      rcases h1 with h1 | ⟨hme, h1⟩
      · rcases h2 with h2 | ⟨hme2, h2⟩
        · exact Or.inl (strLt_trans h1 h2)
        · exact Or.inl (hme2 ▸ h1)
      · rcases h2 with h2 | ⟨hme2, h2⟩
        · exact Or.inl (hme ▸ h2)
        · exact Or.inr ⟨hme.trans hme2, lexLe_trans h1 h2⟩

/-! ## Catalog lemmas -/

/-- A stable sort by an antisymmetric total preorder is a function of the
input multiset: sorting any two permutations of each other gives the same
list. -/
theorem insertionSort_perm_invariant {α : Type} {r : α → α → Prop}
    [DecidableRel r] [IsTotal α r] [IsTrans α r] [IsAntisymm α r]
    {l1 l2 : List α} (h : l1.Perm l2) :
    List.insertionSort r l1 = List.insertionSort r l2 :=
  List.eq_of_perm_of_sorted
    (((List.perm_insertionSort r l1).trans h).trans (List.perm_insertionSort r l2).symm)
    (List.sorted_insertionSort r l1) (List.sorted_insertionSort r l2)

/-- Inserting an element the filter drops does not change the filtered list. -/
theorem filterMap_orderedInsert_none {α β : Type} {p : α → Option β}
    {r : α → α → Prop} [DecidableRel r] {a : α} (ha : p a = none) :
    ∀ l : List α, (List.orderedInsert r a l).filterMap p = l.filterMap p
  | [] => by simp [List.orderedInsert, List.filterMap_cons_none ha]
  | b :: l => by
    simp only [List.orderedInsert]
    split
    · rw [List.filterMap_cons_none ha]
    · rw [List.filterMap_cons, List.filterMap_cons,
        filterMap_orderedInsert_none ha l]

/-- A filename whose base does not split into exactly three `__`-separated
segments parses to nothing (the unpacking raises `ValueError`, caught and
skipped). -/
theorem parseFilename_eq_none {f : String}
    (h : (splitDU (dropExt4 f)).length ≠ 3) : parseFilename f = none := by
  unfold parseFilename
  cases hp : endsWithDotPng f
  · simp
  · simp only [if_true]
    rcases hsp : splitDU (dropExt4 f) with _ | ⟨s1, _ | ⟨s2, _ | ⟨s3, _ | ⟨s4, rest⟩⟩⟩⟩
    · rfl
    · rfl
    · rfl
    · rw [hsp] at h
      simp at h
    · rfl

/-- Dropping a filename the parser skips from the sorted listing leaves the
parsed entry list unchanged. -/
theorem listing_skips_unparsed {bad : String} (hbad : parseFilename bad = none)
    (l1 l2 : List String) :
    (List.insertionSort strLe (l1 ++ bad :: l2)).filterMap parseFilename
      = (List.insertionSort strLe (l1 ++ l2)).filterMap parseFilename := by
  have hA : List.Sorted strLe (List.insertionSort strLe (l1 ++ bad :: l2)) :=
    List.sorted_insertionSort strLe _
  have hB : List.Sorted strLe (List.insertionSort strLe (l1 ++ l2)) :=
    List.sorted_insertionSort strLe _
  have hBi : List.Sorted strLe
      (List.orderedInsert strLe bad (List.insertionSort strLe (l1 ++ l2))) :=
    hB.orderedInsert bad _
  have hperm : (List.insertionSort strLe (l1 ++ bad :: l2)).Perm
      (List.orderedInsert strLe bad (List.insertionSort strLe (l1 ++ l2))) := by
    refine (List.perm_insertionSort strLe _).trans ?_
    refine List.perm_middle.trans ?_
    refine (List.Perm.cons bad (List.perm_insertionSort strLe _).symm).trans ?_
    exact (List.perm_orderedInsert strLe bad _).symm
  rw [List.eq_of_perm_of_sorted hperm hA hBi,
    filterMap_orderedInsert_none hbad]

/-! ## Claim C2: class-name decoding and derivedId construction -/

/-- C2: for every filename of the form `<class>__<metric>__<case>.png`
(stated as: the lowercased name ends in `.png` and the base splits on `__`
into exactly three segments), the builder decodes the class name by
replacing underscores with spaces, and every catalog item's `eval_id` is
`<abbrev(class)>-<METRIC_UPPER>-<case>` with the abbreviation looked up in
`CLASS_ABBREVIATIONS` by decoded class name, defaulting to `"UNK"`. -/
theorem catalog_decodes_class_and_derivedId :
    (∀ f a m c : String, endsWithDotPng f = true →
      splitDU (dropExt4 f) = [a, m, c] →
      parseFilename f = some
        { metric := m
          className := pyReplace '_' ' ' a
          caseName := c
          web_path := public_url (quote f) })
    ∧ (∀ (files : List String) (it : Item), it ∈ load_evaluation_items files →
        it.eval_id = (CLASS_ABBREVIATIONS.lookup it.className).getD "UNK" ++ "-"
          ++ pyUpper it.metric ++ "-" ++ it.caseName) := by
  constructor
  · intro f a m c h1 h2
    unfold parseFilename
    rw [if_pos h1, h2]
  · intro files it hmem
    unfold load_evaluation_items at hmem
    simp only [List.mem_map] at hmem
    obtain ⟨p, _, rfl⟩ := hmem
    rfl

/-- Witness for C2 at the spec's own example `Copra_Cake__AHIQ__case1.png`. -/
theorem catalog_decodes_class_and_derivedId_witness :
    parseFilename "Copra_Cake__AHIQ__case1.png" = some
      { metric := "AHIQ"
        className := pyReplace '_' ' ' "Copra_Cake"
        caseName := "case1"
        web_path := public_url (quote "Copra_Cake__AHIQ__case1.png") }
    ∧ ({ metric := "AHIQ", className := "Copra Cake", caseName := "case1",
         web_path := public_url (quote "Copra_Cake__AHIQ__case1.png"),
         eval_id := "CC-AHIQ-case1", id := 0 : Item }).eval_id
        = (CLASS_ABBREVIATIONS.lookup "Copra Cake").getD "UNK" ++ "-"
          ++ pyUpper "AHIQ" ++ "-" ++ "case1" :=
  ⟨catalog_decodes_class_and_derivedId.1 "Copra_Cake__AHIQ__case1.png"
      "Copra_Cake" "AHIQ" "case1" (by decide) (by decide),
    catalog_decodes_class_and_derivedId.2 ["Copra_Cake__AHIQ__case1.png"]
      { metric := "AHIQ", className := "Copra Cake", caseName := "case1",
        web_path := public_url (quote "Copra_Cake__AHIQ__case1.png"),
        eval_id := "CC-AHIQ-case1", id := 0 } (by decide)⟩

/-! ## Claim C3: dense 0-based positions, key-sorted, deterministic -/

/-- C3: the catalog's `id` fields are exactly `0, 1, ..., N-1` in list
order (a dense 0-based permutation of `[0, N)`), the catalog is ordered by
the sort key `(className, metricName, caseName)`, and the build is a
function of the filename multiset: any two enumeration orders of the same
filename set produce identical catalogs. -/
theorem catalog_positions_dense_sorted_deterministic :
    (∀ files : List String,
      (load_evaluation_items files).map (fun it => it.id)
        = List.range (load_evaluation_items files).length)
    ∧ (∀ files : List String, (load_evaluation_items files).Pairwise itemKeyLe)
    ∧ (∀ files1 files2 : List String, files1.Perm files2 →
        load_evaluation_items files1 = load_evaluation_items files2) := by
  refine ⟨?_, ?_, ?_⟩
  · intro files
    unfold load_evaluation_items
    rw [List.map_map, List.length_map, List.enum_eq_enumFrom, List.enumFrom_length]
    have h1 : ((List.insertionSort keyLe
          ((List.insertionSort strLe files).filterMap parseFilename)).enumFrom 0).map
        ((fun it => it.id) ∘ fun p => enrich p.1 p.2)
        = ((List.insertionSort keyLe
          ((List.insertionSort strLe files).filterMap parseFilename)).enumFrom 0).map
          Prod.fst := by
      rfl
    rw [h1, List.enumFrom_map_fst, ← List.range_eq_range']
  · intro files
    unfold load_evaluation_items
    rw [List.pairwise_map]
    have hs : List.Pairwise keyLe
        (List.insertionSort keyLe
          ((List.insertionSort strLe files).filterMap parseFilename)) :=
      List.sorted_insertionSort keyLe _
    rw [← List.enumFrom_map_snd 0
      (List.insertionSort keyLe
        ((List.insertionSort strLe files).filterMap parseFilename)),
      List.pairwise_map] at hs
    rw [List.enum_eq_enumFrom]
    exact hs.imp (fun h => h)
  · intro files1 files2 h
    unfold load_evaluation_items
    rw [insertionSort_perm_invariant h]

/-- Witness for C3: two enumeration orders of the same two-filename set
build the same catalog. -/
theorem catalog_deterministic_witness :
    load_evaluation_items ["Rice_Bran__SSIM__case2.png", "Copra_Cake__AHIQ__case1.png"]
      = load_evaluation_items
          ["Copra_Cake__AHIQ__case1.png", "Rice_Bran__SSIM__case2.png"] :=
  catalog_positions_dense_sorted_deterministic.2.2 _ _
    (List.Perm.swap "Copra_Cake__AHIQ__case1.png" "Rice_Bran__SSIM__case2.png" [])

/-! ## Claim C8: malformed filenames are skipped without disturbing the rest -/

/-- C8: a filename whose base does not split on `__` into exactly three
segments is excluded from the catalog without aborting the build, and its
exclusion changes nothing about the remaining items: the catalog built with
the malformed name present equals the catalog built without it (so in
particular all relative orders and relative positions of well-formed items
are unchanged). -/
theorem catalog_skips_malformed (bad : String)
    (hbad : (splitDU (dropExt4 bad)).length ≠ 3) (l1 l2 : List String) :
    load_evaluation_items (l1 ++ bad :: l2) = load_evaluation_items (l1 ++ l2) := by
  unfold load_evaluation_items
  rw [listing_skips_unparsed (parseFilename_eq_none hbad)]

/-- Witness for C8: a filename with a single `_` delimiter is dropped and
the other two items keep their catalog. -/
theorem catalog_skips_malformed_witness :
    (splitDU (dropExt4 "Copra_Cake_AHIQ_case9.png")).length ≠ 3
    ∧ load_evaluation_items
        ["Copra_Cake__AHIQ__case1.png", "Copra_Cake_AHIQ_case9.png",
          "Rice_Bran__SSIM__case2.png"]
      = load_evaluation_items
          ["Copra_Cake__AHIQ__case1.png", "Rice_Bran__SSIM__case2.png"] :=
  ⟨by decide,
    catalog_skips_malformed "Copra_Cake_AHIQ_case9.png" (by decide)
      ["Copra_Cake__AHIQ__case1.png"] ["Rice_Bran__SSIM__case2.png"]⟩

/-! ## Claim C1: insert, not upsert -/

/-- C1 counterexample: two `submit` calls with the same
`(session_identifier, eval_id)` key and different ratings leave TWO stored
records for that key, not exactly one — the handler issues a plain
`insert`, with no conflict target on the logical key. -/
theorem submit_twice_leaves_two_records :
    ((submit_evaluation [] true false
        ((submit_evaluation [] true false [] submissionFirst).1)
        submissionSecond).1.filter
      (fun r => decide (r.session_identifier = 7
        ∧ r.eval_id = some "CC-AHIQ-case1"))).length = 2
    ∧ ¬ ((submit_evaluation [] true false
        ((submit_evaluation [] true false [] submissionFirst).1)
        submissionSecond).1.filter
      (fun r => decide (r.session_identifier = 7
        ∧ r.eval_id = some "CC-AHIQ-case1"))).length = 1 := by decide

/-- C1 (amended): `submit` persists via a plain insert: every successful
call appends the row built from the form to the stored table, leaving any
existing row with the same key in place. -/
theorem submit_appends_row (items : List Item) (db : List Record)
    (form : FormData) (r : Record) (h : buildRecord form = some r) :
    (submit_evaluation items true false db form).1 = db ++ [r] := by
  unfold submit_evaluation
  rw [if_neg (by simp), h]
  simp only [Bool.false_eq_true, if_false]
  cases form.next_item_id with
  | none => rfl
  | some s =>
    dsimp only
    by_cases hs : s = "" ∨ s = "None"
    · rw [if_pos hs]
    · rw [if_neg hs]
      cases pyIntOfString s <;> rfl

/-- Witness for the amended C1 at the two concrete submissions. -/
theorem submit_appends_row_witness :
    (submit_evaluation [] true false [recordFirst] submissionSecond).1
      = [recordFirst] ++ [recordSecond] :=
  submit_appends_row [] [recordFirst] submissionSecond recordSecond (by decide)

/-! ## Claim C4: the out-of-range path never redirects home -/

set_option maxRecDepth 8000 in
/-- C4: on an out-of-range position the handler does not redirect home:
no endpoint named `home` is registered (the `/` route registers
`evaluate_item`), so `url_for('home')` raises `BuildError`, which leaves
the handler uncaught — identically at both ends (`-1` and `N`).  In-range
positions do return the item with the specified previous/next links, and
an empty catalog yields the no-items 500 error rather than a redirect. -/
theorem show_out_of_range_raises_buildError :
    evaluate_item [itemCopra, itemRice] (-1) = ShowResult.buildError "home"
    ∧ evaluate_item [itemCopra, itemRice] 2 = ShowResult.buildError "home"
    ∧ "home" ∉ registeredEndpoints
    ∧ evaluate_item [itemCopra, itemRice] 0
        = ShowResult.page itemCopra 0 2 none (some 1)
    ∧ evaluate_item [itemCopra, itemRice] 1
        = ShowResult.page itemRice 1 2 (some 0) none
    ∧ evaluate_item [] (-1) = ShowResult.errorNoItems := by decide

/-! ## Claim C5: invalid fields are rejected before any storage call -/

/-- C5 (amended): when `session_identifier`, `test_rating` or
`comparison_rating` is not coercible to an integer, the stored table is
left unchanged — the coercion raises inside the `try` before the storage
call is reached — but the response is the same generic 500 save-error the
handler produces for storage failures, not a distinct client error. -/
theorem submit_invalid_field_rejected_before_write (items : List Item)
    (db : List Record) (form : FormData) (fails : Bool)
    (h : pyInt form.session_identifier = none ∨ pyInt form.test_rating = none
      ∨ pyInt form.comparison_rating = none) :
    submit_evaluation items true fails db form = (db, SubmitResult.saveError) := by
  have hb : buildRecord form = none := by
    unfold buildRecord
    rcases h with h | h | h
    · rw [h]
    · cases h1 : pyInt form.session_identifier
      · rfl
      · rw [h]
    · cases h1 : pyInt form.session_identifier
      · rfl
      · cases h2 : pyInt form.test_rating
        · rfl
        · rw [h]
  unfold submit_evaluation
  rw [if_neg (by simp), hb]

/-- Witness for the amended C5: a non-numeric `test_rating` leaves the
table empty and yields the generic save error. -/
theorem submit_invalid_field_rejected_witness :
    submit_evaluation [] true false [] submissionBadRating
      = ([], SubmitResult.saveError) :=
  submit_invalid_field_rejected_before_write [] [] submissionBadRating false
    (Or.inr (Or.inl (by decide)))

/-- C5 counterexample: the response to a non-coercible rating is the very
same value as the response to a storage failure — the client input error is
not distinct from the storage error. -/
theorem submit_invalid_field_same_error_as_storage :
    (submit_evaluation [] true false [] submissionBadRating).2
        = SubmitResult.saveError
    ∧ (submit_evaluation [] true true [] submissionFirst).2
        = SubmitResult.saveError := by decide

/-! ## Claim C6: next-cursor computation and failure behaviour -/

/-- C6: after a successful persistence, a present, non-sentinel numeric
`next_item_id` hint redirects to that position and an absent, empty or
`'None'` hint redirects to the complete page; on persistence failure the
table is unchanged and a storage error is returned instead of any
redirect. -/
theorem submit_next_cursor_policy (items : List Item) (db : List Record)
    (form : FormData) (r : Record) (h : buildRecord form = some r) :
    (∀ s k, form.next_item_id = some s → s ≠ "" → s ≠ "None" →
      pyIntOfString s = some k →
      submit_evaluation items true false db form
        = (db ++ [r], SubmitResult.redirectEvaluate k))
    ∧ ((form.next_item_id = none ∨ form.next_item_id = some ""
        ∨ form.next_item_id = some "None") →
      submit_evaluation items true false db form
        = (db ++ [r], SubmitResult.redirectComplete))
    ∧ submit_evaluation items true true db form = (db, SubmitResult.saveError) := by
  refine ⟨?_, ?_, ?_⟩
  · intro s k hs hs1 hs2 hk
    unfold submit_evaluation
    rw [if_neg (by simp), h]
    simp only [Bool.false_eq_true, if_false]
    rw [hs]
    dsimp only
    rw [if_neg (by simp [hs1, hs2]), hk]
  · intro hd
    unfold submit_evaluation
    rw [if_neg (by simp), h]
    simp only [Bool.false_eq_true, if_false]
    rcases hd with hd | hd | hd
    · rw [hd]
    · rw [hd]
      dsimp only
      rw [if_pos (Or.inl rfl)]
    · rw [hd]
      dsimp only
      rw [if_pos (Or.inr rfl)]
  · unfold submit_evaluation
    rw [if_neg (by simp), h]
    simp only [if_true]

/-- Witness for C6 at the spec's §8 example: hint `1` redirects to
position 1, hint `'None'` redirects to complete, and a failed insert
returns the storage error with the table unchanged. -/
theorem submit_next_cursor_policy_witness :
    submit_evaluation [] true false [] submissionFirst
      = ([recordFirst], SubmitResult.redirectEvaluate 1)
    ∧ submit_evaluation [] true false [recordFirst] submissionSecond
      = ([recordFirst, recordSecond], SubmitResult.redirectComplete)
    ∧ submit_evaluation [] true true [] submissionFirst
      = ([], SubmitResult.saveError) :=
  ⟨(submit_next_cursor_policy [] [] submissionFirst recordFirst (by decide)).1
      "1" 1 rfl (by decide) (by decide) (by decide),
    (submit_next_cursor_policy [] [recordFirst] submissionSecond recordSecond
      (by decide)).2.1 (Or.inr (Or.inr rfl)),
    (submit_next_cursor_policy [] [] submissionFirst recordFirst (by decide)).2.2⟩

/-! ## Claim C7: not every exception is caught at the handler boundary -/

/-- C7 counterexample: a form whose `next_item_id` is non-empty,
non-`'None'` and non-numeric makes the submit handler raise outside its
`try`/`except` (`int(next_item_id_str)`), an unhandled fault. -/
theorem submit_bad_hint_unhandled :
    (submit_evaluation [] true false [] submissionBadHint).2
      = SubmitResult.unhandledError := by decide

/-- C7 (amended): the handlers do not catch everything.  The submit
handler propagates an unhandled error exactly when persistence succeeded
and the redirect hint is present, non-empty, non-`'None'` and non-numeric;
the show handler propagates an unhandled `BuildError` exactly when the
catalog is nonempty and the position is out of range.  (The session-id
handler's body is entirely inside its `try`/`except`.) -/
theorem handlers_unhandled_fault_characterization :
    (∀ (items : List Item) (init fails : Bool) (db : List Record)
        (form : FormData),
      (submit_evaluation items init fails db form).2 = SubmitResult.unhandledError
        ↔ (init = true ∧ fails = false ∧ buildRecord form ≠ none
            ∧ ∃ s, form.next_item_id = some s ∧ s ≠ "" ∧ s ≠ "None"
              ∧ pyIntOfString s = none))
    ∧ (∀ (items : List Item) (pos : Int),
        evaluate_item items pos = ShowResult.buildError "home"
          ↔ (items.length ≠ 0 ∧ (pos < 0 ∨ (items.length : Int) ≤ pos))) := by
  constructor
  · intro items init fails db form
    cases init
    · simp [submit_evaluation]
    · cases hb : buildRecord form
      · simp [submit_evaluation, hb]
      · cases fails
        · cases hn : form.next_item_id with
          | none => simp [submit_evaluation, hb, hn]
          | some s =>
            by_cases hs : s = "" ∨ s = "None"
            · rcases hs with rfl | rfl <;> simp [submit_evaluation, hb, hn]
            · cases hp : pyIntOfString s
              · simp [submit_evaluation, hb, hn, hs, hp]
                simp at hs
                exact hs
              · simp [submit_evaluation, hb, hn, hs, hp]
        · simp [submit_evaluation, hb]
  · intro items pos
    unfold evaluate_item
    by_cases hlen : items.length = 0
    · rw [if_pos hlen]
      simp [hlen]
    · rw [if_neg hlen]
      by_cases hr : 0 ≤ pos ∧ pos < (items.length : Int)
      · rw [dif_pos hr]
        constructor
        · intro hfalse
          exact absurd hfalse (by simp)
        · intro hright
          exact absurd hr (by omega)
      · rw [dif_neg hr]
        have hred : redirectTo "home" = ShowResult.buildError "home" := by decide
        rw [hred]
        exact ⟨fun _ => ⟨hlen, by omega⟩, fun _ => rfl⟩

/-- Witness for the amended C7: out-of-range show on a nonempty catalog is
an unhandled `BuildError`. -/
theorem handlers_unhandled_fault_witness :
    evaluate_item [itemCopra] (-1) = ShowResult.buildError "home" :=
  (handlers_unhandled_fault_characterization.2 [itemCopra] (-1)).mpr
    ⟨by decide, Or.inl (by decide)⟩

/-! ## Claim C9: the stored record never depends on the catalog -/

/-- C9: the submit handler is the same function for any two catalog
values (the handler body never reads `EVALUATION_ITEMS`), and the row it
builds copies `eval_id`, `item_class`, `item_metric`, `item_case` and
`comparative_rating` verbatim from the client-supplied form fields — never
re-derived from the catalog by position. -/
theorem submit_record_from_form_only :
    (∀ (items1 items2 : List Item) (init fails : Bool) (db : List Record)
        (form : FormData),
      submit_evaluation items1 init fails db form
        = submit_evaluation items2 init fails db form)
    ∧ (∀ (form : FormData) (r : Record), buildRecord form = some r →
        r.eval_id = form.eval_id ∧ r.item_class = form.item_class
          ∧ r.item_metric = form.item_metric ∧ r.item_case = form.item_case
          ∧ r.comparative_rating = form.comparative_rating) := by
  constructor
  · intro items1 items2 init fails db form
    rfl
  · intro form r h
    unfold buildRecord at h
    split at h
    · cases h
      exact ⟨rfl, rfl, rfl, rfl, rfl⟩
    · cases h

/-- Witness for C9 at the concrete example submission. -/
theorem submit_record_from_form_only_witness :
    recordFirst.eval_id = submissionFirst.eval_id
    ∧ recordFirst.item_class = submissionFirst.item_class
    ∧ recordFirst.item_metric = submissionFirst.item_metric
    ∧ recordFirst.item_case = submissionFirst.item_case
    ∧ recordFirst.comparative_rating = submissionFirst.comparative_rating :=
  submit_record_from_form_only.2 submissionFirst recordFirst (by decide)

/-! ## Claim C10: a falsy session id is reported as an error -/

/-- C10: `get_new_user_id` returns the JSON response with an id exactly
when the client is initialized and the RPC returned a truthy (nonzero)
integer; in particular a returned `0` lands in the `except` branch and is
reported as the 500 error. -/
theorem session_id_truthiness :
    (∀ (init : Bool) (rpc : Except String Int) (n : Int),
      get_new_user_id init rpc = IdResult.json n
        ↔ (init = true ∧ rpc = Except.ok n ∧ n ≠ 0))
    ∧ get_new_user_id true (Except.ok 0) = IdResult.errorRpc := by
  constructor
  · intro init rpc n
    cases init
    · simp [get_new_user_id]
    · cases rpc with
      | error e => simp [get_new_user_id]
      | ok d =>
        by_cases hd : d = 0
        · subst hd
          have h0 : get_new_user_id true (Except.ok 0) = IdResult.errorRpc := by
            decide
          rw [h0]
          constructor
          · intro he
            exact absurd he (by simp)
          · intro he
            obtain ⟨-, h1, h2⟩ := he
            injection h1 with h1
            exact absurd h1.symm h2
        · simp only [get_new_user_id]
          rw [if_neg (by simp)]
          rw [if_pos hd]
          constructor
          · intro he
            injection he with he
            subst he
            exact ⟨by trivial, rfl, hd⟩
          · intro he
            obtain ⟨-, h1, -⟩ := he
            injection h1 with h1
            rw [h1]
  · decide

/-- Witness for C10: a truthy id round-trips to the JSON response. -/
theorem session_id_truthiness_witness :
    get_new_user_id true (Except.ok 5) = IdResult.json 5 :=
  (session_id_truthiness.1 true (Except.ok 5) 5).mpr ⟨rfl, rfl, by decide⟩
